import Mathlib

set_option maxRecDepth 4096

/-!
Verification of the P9813 RGB LED controller driver.

The driver encodes color triples into 4-byte device frames and transmits
them over an SPI transport bounded by all-zero start and end markers.
Machine bytes are modelled as natural numbers; a byte value is a natural
number below 256, and the bitwise complement of a byte b is 255 ^^^ b.
The SPI transport is modelled as a state machine that logs every chunk of
bytes handed to its write operation and whose outcome for the k-th write
attempt is prescribed by a behavior function.
-/

/-- Constant 0b11000000 from the source: the two forced high bits of a
device frame's first byte. -/
def FLAG_BITS : Nat := 0b11000000

/-- The 4-byte all-zero start marker from the source. -/
def FRAME_START : List Nat := [0x00, 0x00, 0x00, 0x00]

/-- The 4-byte all-zero end marker from the source. -/
def FRAME_END : List Nat := [0x00, 0x00, 0x00, 0x00]

/-- Embedding of the source function color_to_array: build the 4-byte
device frame for one color triple.  For a byte b below 256 the Rust
expression !b is 255 ^^^ b. -/
def color_to_array (r g b : Nat) : List Nat :=
  let b_bit := (255 ^^^ b) >>> 6
  let g_bit := (255 ^^^ g) >>> 6
  let r_bit := (255 ^^^ r) >>> 6
  let flagged := FLAG_BITS ||| (b_bit <<< 4) ||| (g_bit <<< 2) ||| r_bit
  [flagged, b, g, r]

/-- Model of the SPI transport: the outcome of the k-th write attempt
(counted from 0) is prescribed by the behavior function, and every chunk
of bytes handed to write is logged in order in attempts. -/
structure Spi (ε : Type) where
  behavior : Nat → Option ε
  attempts : List (List Nat)

/-- One call to the transport's write operation: the chunk is logged and
the outcome is the behavior at the current attempt index. -/
def Spi.write {ε : Type} (s : Spi ε) (bytes : List Nat) : Spi ε × Option ε :=
  (⟨s.behavior, s.attempts ++ [bytes]⟩, s.behavior s.attempts.length)

/-- Embedding of the for loop in the source's set_colors: write one device
frame per triple, stopping at the first transport error. -/
def writeColors {ε : Type} : Spi ε → List (Nat × Nat × Nat) → Spi ε × Option ε
  | s, [] => (s, none)
  | s, (r, g, b) :: rest =>
    match Spi.write s (color_to_array r g b) with
    | (s', none) => writeColors s' rest
    | (s', some e) => (s', some e)

/-- Embedding of the source's set_colors: write the start marker, one frame
per triple, then the end marker, propagating the first transport error. -/
def set_colors {ε : Type} (s : Spi ε) (colors : List (Nat × Nat × Nat)) :
    Spi ε × Except ε Unit :=
  match Spi.write s FRAME_START with
  | (s1, some e) => (s1, Except.error e)
  | (s1, none) =>
    match writeColors s1 colors with
    | (s2, some e) => (s2, Except.error e)
    | (s2, none) =>
      match Spi.write s2 FRAME_END with
      | (s3, some e) => (s3, Except.error e)
      | (s3, none) => (s3, Except.ok ())

/-- Embedding of the source's set_color: delegate to set_colors with the
singleton list. -/
def set_color {ε : Type} (s : Spi ε) (r g b : Nat) : Spi ε × Except ε Unit :=
  set_colors s [(r, g, b)]

/-- Embedding of the source struct P9813: it owns exactly the SPI handle. -/
structure P9813 (SPI : Type) where
  spi : SPI

/-- Embedding of P9813::new: wrap the transport. -/
def P9813.new {SPI : Type} (spi : SPI) : P9813 SPI :=
  ⟨spi⟩

/-- Embedding of P9813::release: hand the transport back. -/
def P9813.release {SPI : Type} (p : P9813 SPI) : SPI :=
  p.spi

/-- Specification-side view: the device frame of a color triple. -/
def frame (c : Nat × Nat × Nat) : List Nat :=
  color_to_array c.1 c.2.1 c.2.2

/-- Specification-side view: the chunks of one transaction, in write order:
start marker, one frame per triple, end marker. -/
def transaction_chunks (colors : List (Nat × Nat × Nat)) : List (List Nat) :=
  FRAME_START :: (colors.map frame ++ [FRAME_END])

/-- Specification-side view: the byte sequence of one full transaction. -/
def encode_transaction (colors : List (Nat × Nat × Nat)) : List Nat :=
  FRAME_START ++ (colors.map frame).flatten ++ FRAME_END

/-- Specification-side helper: issue a list of chunks to the transport in
order, stopping at the first error. -/
def runWrites {ε : Type} : Spi ε → List (List Nat) → Spi ε × Option ε
  | s, [] => (s, none)
  | s, c :: cs =>
    match Spi.write s c with
    | (s', none) => runWrites s' cs
    | (s', some e) => (s', some e)

/-- For a byte below 256, the complemented value shifted right by 6 fits in
two bits. -/
lemma xor255_shift_lt (x : Nat) (hx : x < 256) : (255 ^^^ x) >>> 6 < 4 := by
  have h : ∀ y : Fin 256, ((255 ^^^ (y : Nat)) >>> 6) < 4 := by decide
  exact h ⟨x, hx⟩

/-- Masking a two-bit value with 0b11 is the identity. -/
lemma and_three (x : Nat) (hx : x < 4) : x &&& 3 = x := by
  have h : ∀ y : Fin 4, ((y : Nat) &&& 3) = (y : Nat) := by decide
  exact h ⟨x, hx⟩

/-- The first byte of a device frame keeps its two forced high bits for any
two-bit channel fields. -/
lemma flag_mask (x y z : Nat) (hx : x < 4) (hy : y < 4) (hz : z < 4) :
    (FLAG_BITS ||| (x <<< 4) ||| (y <<< 2) ||| z) &&& 192 = 192 := by
  have h : ∀ a b c : Fin 4,
      ((FLAG_BITS ||| ((a : Nat) <<< 4) ||| ((b : Nat) <<< 2) ||| (c : Nat)) &&& 192) = 192 := by
    decide
  exact h ⟨x, hx⟩ ⟨y, hy⟩ ⟨z, hz⟩

/-- A transport that never fails accepts every chunk and logs all of them
in order. -/
lemma runWrites_ok {ε : Type} (cs : List (List Nat)) :
    ∀ s : Spi ε, (∀ k, s.behavior k = none) →
      runWrites s cs = (⟨s.behavior, s.attempts ++ cs⟩, none) := by
  induction cs with
  | nil => intro s hs; simp [runWrites]
  | cons c cs ih =>
    intro s hs
    simp only [runWrites, Spi.write, hs]
    rw [ih ⟨s.behavior, s.attempts ++ [c]⟩ hs]
    simp

/-- A transport whose first failure is at attempt index k accepts the chunks
before index k, rejects the chunk at index k with the prescribed error, and
sees no chunk after it. -/
lemma runWrites_fail {ε : Type} (k : Nat) (e : ε) (cs : List (List Nat)) :
    ∀ s : Spi ε, (∀ i, i < k → s.behavior i = none) → s.behavior k = some e →
      s.attempts.length ≤ k → k < s.attempts.length + cs.length →
      runWrites s cs =
        (⟨s.behavior, s.attempts ++ cs.take (k - s.attempts.length + 1)⟩, some e) := by
  induction cs with
  | nil =>
    intro s h1 h2 h3 h4
    simp only [List.length_nil, Nat.add_zero] at h4
    omega
  | cons c cs ih =>
    intro s h1 h2 h3 h4
    by_cases hk : s.attempts.length = k
    · simp only [runWrites, Spi.write, hk, h2]
      have h5 : k - k + 1 = 1 := by omega
      simp [hk, h5]
    · have hlt : s.attempts.length < k := lt_of_le_of_ne h3 hk
      simp only [runWrites, Spi.write, h1 _ hlt]
      rw [ih ⟨s.behavior, s.attempts ++ [c]⟩ h1 h2 (by simpa using hlt)
        (by simp only [List.length_cons] at h4; simp; omega)]
      have hd : k - (s.attempts ++ [c]).length + 1 = k - s.attempts.length := by
        simp only [List.length_append, List.length_cons, List.length_nil]
        omega
      have ht : k - s.attempts.length + 1 = (k - s.attempts.length - 1 + 1) + 1 := by
        omega
      rw [hd, ht, List.take_succ_cons]
      have hd2 : k - s.attempts.length - 1 + 1 = k - s.attempts.length := by omega
      simp [hd2]

/-- The source's per-color loop issues exactly the device frames of the
colors, in order. -/
lemma writeColors_eq {ε : Type} (colors : List (Nat × Nat × Nat)) :
    ∀ s : Spi ε, writeColors s colors = runWrites s (colors.map frame) := by
  induction colors with
  | nil => intro s; rfl
  | cons c rest ih =>
    intro s
    obtain ⟨r, g, b⟩ := c
    simp only [writeColors, List.map, runWrites, frame]
    cases h : s.behavior s.attempts.length with
    | none => simp [Spi.write, h, ih]
    | some e => simp [Spi.write, h]

/-- Issuing a concatenation of chunk lists is issuing the first list, then,
when it fully succeeded, the second. -/
lemma runWrites_append {ε : Type} (l1 l2 : List (List Nat)) :
    ∀ s : Spi ε, runWrites s (l1 ++ l2) =
      match runWrites s l1 with
      | (s', none) => runWrites s' l2
      | (s', some e) => (s', some e) := by
  induction l1 with
  | nil => intro s; rfl
  | cons c l1 ih =>
    intro s
    simp only [List.cons_append, runWrites]
    cases h : s.behavior s.attempts.length with
    | none => simp [Spi.write, h, ih]
    | some e => simp [Spi.write, h]

/-- The source's set_colors is: issue the transaction chunks in order and
translate the outcome into a Result. -/
lemma set_colors_eq {ε : Type} (s : Spi ε) (colors : List (Nat × Nat × Nat)) :
    set_colors s colors =
      ((runWrites s (transaction_chunks colors)).1,
        ((runWrites s (transaction_chunks colors)).2).elim
          (Except.ok ()) Except.error) := by
  simp only [transaction_chunks]
  rw [show (FRAME_START :: (colors.map frame ++ [FRAME_END]))
      = [FRAME_START] ++ (colors.map frame ++ [FRAME_END]) from rfl]
  rw [runWrites_append]
  simp only [set_colors, runWrites]
  cases h0 : s.behavior s.attempts.length with
  | some e => simp [Spi.write, h0]
  | none =>
    simp only [Spi.write, h0]
    rw [runWrites_append, ← writeColors_eq]
    cases h1 : writeColors ⟨s.behavior, s.attempts ++ [FRAME_START]⟩ colors with
    | mk s2 o2 =>
      cases o2 with
      | some e => simp
      | none =>
        cases h2 : s2.behavior s2.attempts.length with
        | none => simp [runWrites, Spi.write, h2]
        | some e => simp [runWrites, Spi.write, h2]

/-- On a transport that never fails, set_colors succeeds and appends exactly
the transaction chunks to the write log. -/
lemma set_colors_ok {ε : Type} (s : Spi ε) (hf : ∀ k, s.behavior k = none)
    (colors : List (Nat × Nat × Nat)) :
    set_colors s colors =
      (⟨s.behavior, s.attempts ++ transaction_chunks colors⟩, Except.ok ()) := by
  rw [set_colors_eq, runWrites_ok _ _ hf]
  simp

/-- Claim C1: for all bytes r, g, b in 0-255, byte 0 of the encoded device
frame equals 0b11000000 OR the complemented top two bits of blue shifted to
bits 5-4, of green to bits 3-2, and of red to bits 1-0. -/
theorem first_byte_formula (r g b : Nat) (hr : r < 256) (hg : g < 256) (hb : b < 256) :
    (color_to_array r g b).headI =
      0b11000000 ||| ((((255 ^^^ b) >>> 6) &&& 0b11) <<< 4)
        ||| ((((255 ^^^ g) >>> 6) &&& 0b11) <<< 2)
        ||| (((255 ^^^ r) >>> 6) &&& 0b11) := by
  have hb4 := xor255_shift_lt b hb
  have hg4 := xor255_shift_lt g hg
  have hr4 := xor255_shift_lt r hr
  simp only [color_to_array, List.headI,
    and_three _ hb4, and_three _ hg4, and_three _ hr4]
  rfl

/-- Witness for claim C1 at the concrete input r = 1, g = 2, b = 3. -/
theorem first_byte_formula_witness :
    (color_to_array 1 2 3).headI =
      0b11000000 ||| ((((255 ^^^ 3) >>> 6) &&& 0b11) <<< 4)
        ||| ((((255 ^^^ 2) >>> 6) &&& 0b11) <<< 2)
        ||| (((255 ^^^ 1) >>> 6) &&& 0b11) :=
  first_byte_formula 1 2 3 (by decide) (by decide) (by decide)

/-- Claim C3: for every color value r, g, b in 0-255, the two most
significant bits of byte 0 of the device frame are set. -/
theorem first_byte_flag_bits (r g b : Nat) (hr : r < 256) (hg : g < 256) (hb : b < 256) :
    (color_to_array r g b).headI &&& 0b11000000 = 0b11000000 := by
  have hb4 := xor255_shift_lt b hb
  have hg4 := xor255_shift_lt g hg
  have hr4 := xor255_shift_lt r hr
  simp only [color_to_array, List.headI]
  exact flag_mask _ _ _ hb4 hg4 hr4

/-- Witness for claim C3 at the concrete input r = 0, g = 255, b = 200. -/
theorem first_byte_flag_bits_witness :
    (color_to_array 0 255 200).headI &&& 0b11000000 = 0b11000000 :=
  first_byte_flag_bits 0 255 200 (by decide) (by decide) (by decide)

/-- Claim C4: bytes 1 through 3 of the encoded device frame are exactly the
raw input bytes b, g, r in that order. -/
theorem payload_bytes (r g b : Nat) :
    (color_to_array r g b).drop 1 = [b, g, r] :=
  rfl

/-- Every device frame has exactly 4 bytes. -/
lemma frame_length (c : Nat × Nat × Nat) : (frame c).length = 4 :=
  rfl

/-- The concatenated device frames of n colors occupy 4 * n bytes. -/
lemma frames_flatten_length (colors : List (Nat × Nat × Nat)) :
    ((colors.map frame).flatten).length = 4 * colors.length := by
  induction colors with
  | nil => rfl
  | cons c rest ih =>
    simp only [List.map_cons, List.flatten_cons, List.length_append, ih,
      frame_length, List.length_cons]
    omega

/-- The lengths of the device frames of n colors sum to 4 * n. -/
lemma frames_sum (colors : List (Nat × Nat × Nat)) :
    (List.map (List.length ∘ frame) colors).sum = 4 * colors.length := by
  induction colors with
  | nil => rfl
  | cons c rest ih =>
    simp only [List.map_cons, List.sum_cons, Function.comp_apply, frame_length,
      ih, List.length_cons]
    omega

/-- Claim C2: on a never-failing transport, set_colors succeeds and the
bytes written are the start marker, one device frame per triple in the
caller's order, and the end marker, 8 + 4 * n bytes in total; the empty
sequence yields exactly 8 zero bytes and still succeeds. -/
theorem transaction_bytes (ε : Type) (f : Nat → Option ε) (hf : ∀ k, f k = none)
    (colors : List (Nat × Nat × Nat)) :
    (set_colors (⟨f, []⟩ : Spi ε) colors).2 = Except.ok () ∧
    ((set_colors (⟨f, []⟩ : Spi ε) colors).1.attempts).flatten =
      FRAME_START ++ (colors.map frame).flatten ++ FRAME_END ∧
    ((set_colors (⟨f, []⟩ : Spi ε) colors).1.attempts).flatten.length =
      8 + 4 * colors.length ∧
    (colors = [] →
      ((set_colors (⟨f, []⟩ : Spi ε) colors).1.attempts).flatten =
        List.replicate 8 0) := by
  rw [set_colors_ok ⟨f, []⟩ hf colors]
  refine ⟨rfl, ?_, ?_, ?_⟩
  · simp [transaction_chunks, FRAME_START, FRAME_END]
  · simp only [List.nil_append, transaction_chunks, List.flatten_cons,
      List.flatten_append, List.flatten_cons, List.flatten_nil, List.append_nil,
      List.length_append, frames_flatten_length, FRAME_START, FRAME_END,
      List.length_cons, List.length_nil]
    omega
  · intro h; subst h; rfl

/-- Witness for claim C2 on the never-failing transport with the two-device
input of the specification. -/
theorem transaction_bytes_witness :
    (set_colors (⟨fun _ => none, []⟩ : Spi Unit) [(0, 255, 200), (255, 50, 20)]).2 =
      Except.ok () ∧
    ((set_colors (⟨fun _ => none, []⟩ : Spi Unit)
        [(0, 255, 200), (255, 50, 20)]).1.attempts).flatten =
      FRAME_START ++ ([(0, 255, 200), (255, 50, 20)].map frame).flatten ++ FRAME_END ∧
    ((set_colors (⟨fun _ => none, []⟩ : Spi Unit)
        [(0, 255, 200), (255, 50, 20)]).1.attempts).flatten.length =
      8 + 4 * [(0, 255, 200), (255, 50, 20)].length ∧
    ([(0, 255, 200), (255, 50, 20)] = ([] : List (Nat × Nat × Nat)) →
      ((set_colors (⟨fun _ => none, []⟩ : Spi Unit)
          [(0, 255, 200), (255, 50, 20)]).1.attempts).flatten =
        List.replicate 8 0) :=
  transaction_bytes Unit (fun _ => none) (fun _ => rfl) [(0, 255, 200), (255, 50, 20)]

/-- Claim C5: if the transport's first failure is at the (zero-based) write
index k and set_colors issues at least k + 1 writes, then set_colors returns
exactly that error and the write log is exactly the first k + 1 transaction
chunks: nothing after the failing write, no retry. -/
theorem fail_fast (ε : Type) (f : Nat → Option ε) (k : Nat) (e : ε)
    (colors : List (Nat × Nat × Nat))
    (h1 : ∀ i, i < k → f i = none) (h2 : f k = some e)
    (h3 : k < colors.length + 2) :
    (set_colors (⟨f, []⟩ : Spi ε) colors).2 = Except.error e ∧
    (set_colors (⟨f, []⟩ : Spi ε) colors).1.attempts =
      (transaction_chunks colors).take (k + 1) := by
  have hlen : (transaction_chunks colors).length = colors.length + 2 := by
    simp [transaction_chunks]
  have h := runWrites_fail k e (transaction_chunks colors) ⟨f, []⟩ h1 h2
    (by simp) (by simp [hlen]; omega)
  rw [set_colors_eq, h]
  simp

/-- Witness for claim C5: the transport rejects the second write (the first
device frame) while sending one triple. -/
theorem fail_fast_witness :
    (set_colors (⟨fun i => if i = 1 then some () else none, []⟩ : Spi Unit)
        [(0, 255, 200)]).2 = Except.error () ∧
    (set_colors (⟨fun i => if i = 1 then some () else none, []⟩ : Spi Unit)
        [(0, 255, 200)]).1.attempts =
      (transaction_chunks [(0, 255, 200)]).take (1 + 1) :=
  fail_fast Unit (fun i => if i = 1 then some () else none) 1 () [(0, 255, 200)]
    (fun i hi => by interval_cases i; rfl) rfl (by decide)

/-- Claim C6: the transaction for the single triple (0, 255, 200) is exactly
the 12 bytes 0,0,0,0, 0b11000011,200,255,0, 0,0,0,0. -/
theorem single_triple_example :
    ((set_colors (⟨fun _ => none, []⟩ : Spi Unit) [(0, 255, 200)]).1.attempts).flatten =
      [0, 0, 0, 0, 0b11000011, 200, 255, 0, 0, 0, 0, 0] ∧
    (set_colors (⟨fun _ => none, []⟩ : Spi Unit) [(0, 255, 200)]).2 = Except.ok () ∧
    encode_transaction [(0, 255, 200)] =
      [0, 0, 0, 0, 0b11000011, 200, 255, 0, 0, 0, 0, 0] :=
  ⟨rfl, rfl, rfl⟩

/-- Claim C7: set_color is set_colors on the singleton list: same writes,
same result. -/
theorem set_color_singleton (ε : Type) (s : Spi ε) (r g b : Nat) :
    set_color s r g b = set_colors s [(r, g, b)] :=
  rfl

/-- Claim C8: the chunks a set_colors call hands to the transport depend
only on the input colors: two never-failing transports with arbitrary and
possibly different prior write logs receive the same new chunks, namely the
transaction chunks of the input. -/
theorem deterministic_transaction (ε : Type) (s1 s2 : Spi ε)
    (colors : List (Nat × Nat × Nat))
    (hf1 : ∀ k, s1.behavior k = none) (hf2 : ∀ k, s2.behavior k = none) :
    ((set_colors s1 colors).1.attempts).drop s1.attempts.length =
      ((set_colors s2 colors).1.attempts).drop s2.attempts.length ∧
    ((set_colors s1 colors).1.attempts).drop s1.attempts.length =
      transaction_chunks colors := by
  rw [set_colors_ok s1 hf1 colors, set_colors_ok s2 hf2 colors]
  simp

/-- Witness for claim C8: two transports, one with an empty log and one with
a prior chunk, receive the same new chunks. -/
theorem deterministic_transaction_witness :
    ((set_colors (⟨fun _ => none, []⟩ : Spi Unit) [(7, 8, 9)]).1.attempts).drop
        (Spi.attempts (⟨fun _ => none, []⟩ : Spi Unit)).length =
      ((set_colors (⟨fun _ => none, [[1, 2]]⟩ : Spi Unit) [(7, 8, 9)]).1.attempts).drop
        (Spi.attempts (⟨fun _ => none, [[1, 2]]⟩ : Spi Unit)).length ∧
    ((set_colors (⟨fun _ => none, []⟩ : Spi Unit) [(7, 8, 9)]).1.attempts).drop
        (Spi.attempts (⟨fun _ => none, []⟩ : Spi Unit)).length =
      transaction_chunks [(7, 8, 9)] :=
  deterministic_transaction Unit ⟨fun _ => none, []⟩ ⟨fun _ => none, [[1, 2]]⟩
    [(7, 8, 9)] (fun _ => rfl) (fun _ => rfl)

/-- Claim C9: constructing a controller from a transport and releasing it
returns exactly that transport. -/
theorem new_release_roundtrip (SPI : Type) (t : SPI) :
    (P9813.new t).release = t :=
  rfl

/-- Claim C10: on a never-failing transport, set_colors issues exactly
n + 2 separate write calls: the start marker, one frame per triple in
order, and the end marker, whose bytes concatenate to the full
transaction. -/
theorem write_call_structure (ε : Type) (f : Nat → Option ε) (hf : ∀ k, f k = none)
    (colors : List (Nat × Nat × Nat)) :
    (set_colors (⟨f, []⟩ : Spi ε) colors).2 = Except.ok () ∧
    (set_colors (⟨f, []⟩ : Spi ε) colors).1.attempts.length = colors.length + 2 ∧
    (set_colors (⟨f, []⟩ : Spi ε) colors).1.attempts =
      FRAME_START :: (colors.map frame ++ [FRAME_END]) ∧
    ((set_colors (⟨f, []⟩ : Spi ε) colors).1.attempts).flatten =
      encode_transaction colors := by
  rw [set_colors_ok ⟨f, []⟩ hf colors]
  refine ⟨rfl, ?_, rfl, ?_⟩
  · simp [transaction_chunks]
  · simp [transaction_chunks, encode_transaction]

/-- Witness for claim C10 on the never-failing transport with one triple. -/
theorem write_call_structure_witness :
    (set_colors (⟨fun _ => none, []⟩ : Spi Unit) [(0, 255, 200)]).2 = Except.ok () ∧
    (set_colors (⟨fun _ => none, []⟩ : Spi Unit) [(0, 255, 200)]).1.attempts.length =
      [(0, 255, 200)].length + 2 ∧
    (set_colors (⟨fun _ => none, []⟩ : Spi Unit) [(0, 255, 200)]).1.attempts =
      FRAME_START :: ([(0, 255, 200)].map frame ++ [FRAME_END]) ∧
    ((set_colors (⟨fun _ => none, []⟩ : Spi Unit) [(0, 255, 200)]).1.attempts).flatten =
      encode_transaction [(0, 255, 200)] :=
  write_call_structure Unit (fun _ => none) (fun _ => rfl) [(0, 255, 200)]
